import Mathlib

/-!  Verification development for the ItemGenerator script
(`src/scripts/main.js` of the repository).

The JavaScript source is shallowly embedded: JS strings become lists of
characters, JS numbers that the script produces with `parseInt` become
`Option Int` (with `none` playing the role of `NaN`), block coordinates
become integer triples, entity coordinates become rational triples (all
coordinates the script manipulates are halves, which binary floats
represent exactly), and the mutable world becomes an explicit state record
threaded through the translated functions.  The host item system
(`new ItemStack` / `spawnItem`), an external collaborator, is a boolean
validation parameter `itemOk` of the tick processor.
-/

namespace ItemGen

/-- JS strings are modelled as lists of characters. -/
abbrev Str := List Char

/-- Whitespace characters skipped by JS `parseInt` (the common ASCII ones). -/
def isJsSpace (c : Char) : Bool := c == ' ' || c == '\t' || c == '\n' || c == '\r'

/-- Decimal digit test, `'0'` through `'9'` (code points 48 to 57). -/
def isDigitC (c : Char) : Bool := decide (48 ≤ c.toNat ∧ c.toNat ≤ 57)

/-- Value of a decimal digit character. -/
def digitVal (c : Char) : Nat := c.toNat - 48

/-- Value of a string of decimal digits, most significant first. -/
def digitsToNat (l : Str) : Nat := l.foldl (fun a c => a * 10 + digitVal c) 0

/-- Hexadecimal digit test (`0-9`, `A-F`, `a-f`). -/
def isHexDigitC (c : Char) : Bool :=
  decide ((48 ≤ c.toNat ∧ c.toNat ≤ 57) ∨ (65 ≤ c.toNat ∧ c.toNat ≤ 70) ∨
          (97 ≤ c.toNat ∧ c.toNat ≤ 102))

/-- Value of a hexadecimal digit character. -/
def hexVal (c : Char) : Nat :=
  if c.toNat ≤ 57 then c.toNat - 48 else if c.toNat ≤ 70 then c.toNat - 55 else c.toNat - 87

/-- Value of a string of hexadecimal digits, most significant first. -/
def hexToNat (l : Str) : Nat := l.foldl (fun a c => a * 16 + hexVal c) 0

/-- Longest decimal-digit prefix of a string, `none` when there is none
(JS `parseInt` ignores trailing non-digit characters). -/
def parseDec (s : Str) : Option Nat :=
  let ds := s.takeWhile isDigitC
  if ds = [] then none else some (digitsToNat ds)

/-- Longest hexadecimal-digit prefix of a string, `none` when there is none. -/
def parseHex (s : Str) : Option Nat :=
  let ds := s.takeWhile isHexDigitC
  if ds = [] then none else some (hexToNat ds)

/-- Does the (sign-stripped) string start with a `0x` / `0X` radix marker? -/
def hexMarked : Str → Bool
  | c0 :: c1 :: _ => decide (c0 = '0' ∧ (c1 = 'x' ∨ c1 = 'X'))
  | _ => false

/-- The whitespace-stripped part of JS `parseInt`: read an optional sign,
honour a `0x` hexadecimal marker, take the longest digit prefix, and
return `none` (JS `NaN`) when that prefix is empty. -/
def parseIntSigned : Str → Option Int
  | [] => none
  | c :: r =>
    let sgn : Int := if c = '-' then -1 else 1
    let s2 := if c = '-' ∨ c = '+' then r else c :: r
    if hexMarked s2 then (parseHex (s2.drop 2)).map (fun n => sgn * n)
    else (parseDec s2).map (fun n => sgn * n)

/-- Model of JS `parseInt(s)` with no radix argument: skip leading
whitespace, then parse the signed number. -/
def parseIntJS (s : Str) : Option Int := parseIntSigned (s.dropWhile isJsSpace)

/-- Character of a decimal digit value. -/
def digitChar (d : Nat) : Char := Char.ofNat (48 + d)

/-- Decimal digit string of a natural number, fuelled so that the kernel can
evaluate it (the fuel argument strictly dominates the number). -/
def natToDigitsAux : Nat → Nat → Str
  | 0, _ => []
  | fuel + 1, n =>
    if n < 10 then [digitChar n] else natToDigitsAux fuel (n / 10) ++ [digitChar (n % 10)]

/-- Decimal digit string of a natural number, most significant digit first. -/
def natToDigits (n : Nat) : Str := natToDigitsAux (n + 1) n

/-- Model of JS `String(n)` for an integer-valued number `n`. -/
def intToStr (n : Int) : Str :=
  if n < 0 then '-' :: natToDigits (-n).toNat else natToDigits n.toNat

/-- Model of JS `String(x)` where `x` is a number that may be `NaN`
(the result of a failed `parseInt`). -/
def numStr : Option Int → Str
  | some n => intToStr n
  | none => "NaN".data

/-- Model of JS `s.split(",")` (single-character separator). -/
def splitComma : Str → List Str
  | [] => [[]]
  | c :: rest =>
    if c = ',' then [] :: splitComma rest
    else
      match splitComma rest with
      | [] => [[c]]
      | h :: t => (c :: h) :: t

/-- Model of JS `s.replace(pat, rep)` for a plain-string pattern: only the
first occurrence is replaced. -/
def replaceFirst (pat rep : Str) : Str → Str
  | [] => if pat = [] then rep else []
  | c :: rest =>
    if pat.isPrefixOf (c :: rest) then rep ++ (c :: rest).drop pat.length
    else c :: replaceFirst pat rep rest

/-!  Coordinates.  Every coordinate the script ever produces is either an
integer or an integer plus one half (`pos.x += 0.5`), and the script only
ever adds integers or `0.5` to coordinates; binary floating point represents
all these values and operations exactly, so coordinates are embedded as the
exact subring fragment `{ n + h/2 | n : Int, h ∈ {0,1} }`. -/

/-- An exact coordinate value `whole + (if half then 1/2 else 0)`. -/
structure Coord where
  whole : Int
  half : Bool
deriving DecidableEq, Repr

/-- Coordinate addition (with carry of two halves into a whole unit). -/
def Coord.add (a b : Coord) : Coord :=
  ⟨a.whole + b.whole + (if a.half && b.half then 1 else 0), xor a.half b.half⟩

/-- Embedding of an integer coordinate. -/
def Coord.ofInt (n : Int) : Coord := ⟨n, false⟩

/-- The JS literal `0.5`. -/
def oneHalf : Coord := ⟨0, true⟩

/-- Adding an integer to a coordinate (JS `pos.y += k`). -/
def Coord.addInt (a : Coord) (k : Int) : Coord := ⟨a.whole + k, a.half⟩

/-- JS `Math.floor` on a coordinate (the fractional part is `0` or `1/2`). -/
def Coord.floorC (a : Coord) : Int := a.whole

/-- A continuous (entity) position, as the host API's `Vector3`. -/
structure Vec3 where
  x : Coord
  y : Coord
  z : Coord
deriving DecidableEq, Repr

/-- An integer (block-aligned) position. -/
structure BlockPos where
  x : Int
  y : Int
  z : Int
deriving DecidableEq, Repr

/-- Flooring a continuous position to the block grid, as the host's
`getBlock` / `setBlockType` do with fractional coordinates. -/
def vfloor (v : Vec3) : BlockPos := ⟨v.x.floorC, v.y.floorC, v.z.floorC⟩

/-- The block-aligned position of an integer triple. -/
def Vec3.ofBlock (p : BlockPos) : Vec3 := ⟨Coord.ofInt p.x, Coord.ofInt p.y, Coord.ofInt p.z⟩

/-!  Constants of the script (`CONSTANTS` in the source) and the literal
strings it uses. -/

/-- `CONSTANTS.BARRIER_OFFSET` (height of the barrier above the target). -/
def barrierOffset : Int := 99

/-- `CONSTANTS.ITEM_SPAWN_OFFSET` (item spawn height below the marker). -/
def itemSpawnOffset : Int := 98

/-- Type id string of air blocks. -/
def airT : Str := "minecraft:air".data

/-- Type id string of barrier blocks. -/
def barrierT : Str := "minecraft:barrier".data

/-- Type id string of armor stands. -/
def armorStandT : Str := "minecraft:armor_stand".data

/-- The generator tag marker `"gen:"`. -/
def genMark : Str := "gen:".data

/-- The countdown-initialization flag tag `"count_initialized"`. -/
def initMark : Str := "count_initialized".data

/-- The required namespace of item ids, `"minecraft:"`. -/
def nsMark : Str := "minecraft:".data

/-- Broadcast when the generator block is found missing (line 171). -/
def msgNoBlock : Str := "§gジェネレーターブロックが存在しないため削除されました".data

/-- Broadcast by `removeInvalidGenerator` (line 151). -/
def msgInvalidRemoved : Str := "§4無効なジェネレーターが削除されました。".data

/-- Broadcast when item construction or placement failed (line 192). -/
def msgBadItem : Str := "§4無効なアイテムの生成が試みられたため、ジェネレーターが削除されました".data

/-- Sent to the player on invalid form input (line 111). -/
def msgBadInput : Str := "§4入力値が不正です".data

/-- Sent to the player when a protected block break is rejected (line 257). -/
def msgBreakDeny : Str := "§gジェネレーターは§aクリエイティブモード§gでのみ破壊できます。".data

/-!  The world state.  Blocks are a total assignment of type id strings to
block positions; entities carry the fields the script uses (type id,
location, name tag, tag list) plus an identity used to model the host's
entity handles.  Item spawns and chat broadcasts are recorded in logs.
The single-dimension model suffices for the claims: the script runs the
same per-entity code in each dimension independently. -/

/-- An entity of the world (armor stands are the only relevant kind). -/
structure Entity where
  id : Nat
  typeId : Str
  loc : Vec3
  nameTag : Str
  tags : List Str
deriving DecidableEq, Repr

/-- An item entity spawned by `dimension.spawnItem`; `amount = none` records
a `NaN` count handed to the `ItemStack` constructor. -/
structure SpawnedItem where
  itemId : Str
  amount : Option Int
  loc : Vec3
deriving DecidableEq, Repr

/-- The world state threaded through the translated script. -/
structure World where
  blocks : BlockPos → Str
  entities : List Entity
  nextId : Nat
  spawnedItems : List SpawnedItem
  messages : List Str

/-- Setting a block type at an integer position (`dimension.setBlockType`
called with integer coordinates). -/
def setBlockI (B : BlockPos → Str) (q : BlockPos) (t : Str) : BlockPos → Str :=
  fun r => if r = q then t else B r

/-- Reading a block at a continuous position (the host floors coordinates). -/
def blockAtV (B : BlockPos → Str) (v : Vec3) : Str := B (vfloor v)

/-- Setting a block type at a continuous position (the host floors
coordinates). -/
def setBlockV (B : BlockPos → Str) (v : Vec3) (t : Str) : BlockPos → Str :=
  setBlockI B (vfloor v) t

/-- Looking an entity up by its handle. -/
def findEntity (w : World) (id : Nat) : Option Entity :=
  w.entities.find? (fun e => e.id == id)

/-- Mutating the entity a handle refers to (handles are unique). -/
def updateEntity (w : World) (id : Nat) (f : Entity → Entity) : World :=
  { w with entities := w.entities.map (fun e => if e.id = id then f e else e) }

/-- `entity.kill()`: the entity disappears from the world. -/
def killEntity (w : World) (id : Nat) : World :=
  { w with entities := w.entities.filter (fun e => e.id != id) }

/-- `world.sendMessage(m)`: a broadcast is appended to the log. -/
def broadcast (w : World) (m : Str) : World :=
  { w with messages := w.messages ++ [m] }

/-!  `GeneratorSettings` (source lines 60-91). -/

/-- The settings object: `ticks` and `itemCount` hold `parseInt` results
(`none` = `NaN`), `itemId` the raw string. -/
structure GeneratorSettings where
  ticks : Option Int
  itemId : Str
  itemCount : Option Int
deriving DecidableEq, Repr

/-- The constructor plus `fromFormValues`: parse the two numeric fields. -/
def GeneratorSettings.ofFormValues (v0 v1 v2 : Str) : GeneratorSettings :=
  ⟨parseIntJS v0, v1, parseIntJS v2⟩

/-- `GeneratorSettings.validate` (lines 86-90): both numbers parsed
(`!isNaN`) and the item id starts with `"minecraft:"`. -/
def GeneratorSettings.validate (s : GeneratorSettings) : Bool :=
  s.ticks.isSome && nsMark.isPrefixOf s.itemId && s.itemCount.isSome

/-- The tag attached by `setUpArmorStand` (line 138):
`gen:` + ticks + `,` + itemId + `,` + itemCount + `,` + x + `,` + y + `,` + z. -/
def genTagStr (s : GeneratorSettings) (p : BlockPos) : Str :=
  genMark ++ numStr s.ticks ++ [','] ++ s.itemId ++ [','] ++ numStr s.itemCount ++ [','] ++
    intToStr p.x ++ [','] ++ intToStr p.y ++ [','] ++ intToStr p.z

/-- `setUpArmorStand` (lines 126-139): place a barrier `BARRIER_OFFSET`
above the targeted block, spawn an armor stand one block higher centered on
the column (`+0.5` on x and z), set its name tag to the tick count and
attach the encoded configuration tag.  (The spawned stand's name tag and
tag are set right after spawning; the model spawns it with them set.) -/
def setUpArmorStand (w : World) (blockLoc : BlockPos) (s : GeneratorSettings) : World :=
  let basePos := blockLoc
  let barrierP : BlockPos := ⟨blockLoc.x, blockLoc.y + barrierOffset, blockLoc.z⟩
  let w1 := { w with blocks := setBlockI w.blocks barrierP barrierT }
  let standP : Vec3 :=
    ⟨Coord.add (Coord.ofInt blockLoc.x) oneHalf,
     Coord.addInt (Coord.addInt (Coord.ofInt blockLoc.y) barrierOffset) 1,
     Coord.add (Coord.ofInt blockLoc.z) oneHalf⟩
  let stand : Entity := ⟨w1.nextId, armorStandT, standP, numStr s.ticks, [genTagStr s basePos]⟩
  { w1 with entities := w1.entities ++ [stand], nextId := w1.nextId + 1 }

/-- `removeInvalidGenerator` (lines 147-152): add `BARRIER_OFFSET` to the
given position, set that block to air, kill the armor stand, broadcast.
(The caller at line 191 passes `entity.location`, so the position cleared
is `BARRIER_OFFSET` above the marker, not the barrier below it.) -/
def removeInvalidGenerator (w : World) (pos : Vec3) (standId : Nat) : World :=
  let p : Vec3 := { pos with y := pos.y.addInt barrierOffset }
  let w1 := { w with blocks := setBlockV w.blocks p airT }
  let w2 := killEntity w1 standId
  broadcast w2 msgInvalidRemoved

/-- The tag decoding in `processEntity` (line 161):
`tag.replace("gen:", "").split(",")`. -/
def decodeValues (tag : Str) : List Str := splitComma (replaceFirst genMark [] tag)

/-- `processEntity` (lines 160-200).  The invisibility effect applied at
line 162 is cosmetic (it touches no state the script ever reads) and is not
tracked.  `itemOk` stands for the host item system: it tells whether
`new ItemStack(id, amount)` / `spawnItem` succeed or throw for the decoded
item id and amount (`none` = `NaN`).  Field accesses `values[i]` on a
too-short split list would be JS `undefined`; they are modelled by the
empty string, which `parseInt` likewise takes to `NaN`. -/
def processEntity (itemOk : Str → Option Int → Bool) (id : Nat) (tag : Str) (w : World) :
    World :=
  match findEntity w id with
  | none => w
  | some e0 =>
    let values := decodeValues tag
    let low : Vec3 := { e0.loc with y := e0.loc.y.addInt (-(barrierOffset + 1)) }
    if blockAtV w.blocks low = airT then
      let w1 := { w with blocks := setBlockV w.blocks { low with y := low.y.addInt barrierOffset } airT }
      let w2 := killEntity w1 id
      broadcast w2 msgNoBlock
    else
      let e :=
        if e0.tags.contains initMark then e0
        else { e0 with nameTag := values.getD 0 [], tags := e0.tags ++ [initMark] }
      let w1 := updateEntity w id (fun _ => e)
      match parseIntJS e.nameTag with
      | some c0 =>
        let c1 := c0 - 1
        if c1 ≤ 0 then
          let c2 := parseIntJS (values.getD 0 [])
          let dropP : Vec3 := { e.loc with y := e.loc.y.addInt (-itemSpawnOffset) }
          if itemOk (values.getD 1 []) (parseIntJS (values.getD 2 [])) then
            let w2 := { w1 with
              spawnedItems := w1.spawnedItems ++
                [⟨values.getD 1 [], parseIntJS (values.getD 2 []), dropP⟩] }
            updateEntity w2 id (fun e' => { e' with nameTag := numStr c2 })
          else
            let w2 := removeInvalidGenerator w1 e.loc id
            broadcast w2 msgBadItem
        else
          updateEntity w1 id (fun e' => { e' with nameTag := intToStr c1 })
      | none =>
        updateEntity w1 id (fun e' => { e' with nameTag := values.getD 0 [] })

/-- The first tag of an entity starting with `"gen:"` (the inner loop with
`break` at lines 211-216: first match wins). -/
def genTagOf (e : Entity) : Option Str := e.tags.find? (fun t => genMark.isPrefixOf t)

/-- The registry scan of one `system.runInterval` pass (lines 203-218):
the snapshot of `(entity, tag)` pairs taken before any processing. -/
def scanGenerators (w : World) : List (Nat × Str) :=
  w.entities.filterMap (fun e => (genTagOf e).map (fun t => (e.id, t)))

/-- One full tick of the main loop (lines 203-221): snapshot the gen-tagged
entities, then process each in order.  An entity killed by the time its
turn comes is skipped (the model's lookup-by-handle yields nothing). -/
def tickStep (itemOk : Str → Option Int → Bool) (w : World) : World :=
  (scanGenerators w).foldl (fun acc pr => processEntity itemOk pr.1 pr.2 acc) w

/-!  The `playerBreakBlock` guard (lines 224-260). -/

/-- Game modes of the host. -/
inductive GameMode where
  | survival
  | creative
  | adventure
  | spectator
deriving DecidableEq, Repr

/-- The `beforeEvents.playerBreakBlock` handler: returns whether the event
was cancelled and the messages sent to the breaking player. -/
def breakBlockGuard (w : World) (gm : GameMode) (blockPos : BlockPos) : Bool × List Str :=
  let barrierP : BlockPos := ⟨blockPos.x, blockPos.y + barrierOffset, blockPos.z⟩
  if w.blocks barrierP = barrierT then
    let standP : BlockPos := ⟨barrierP.x, barrierP.y + 1, barrierP.z⟩
    let isGenerator := w.entities.any (fun e =>
      e.typeId == armorStandT &&
      e.tags.any (fun t => genMark.isPrefixOf t) &&
      vfloor e.loc == standP)
    if isGenerator && !(gm == GameMode.creative) then (true, [msgBreakDeny])
    else (false, [])
  else (false, [])

/-!  The `itemUse` handler (lines 263-272). -/

/-- Outcome of one `itemUse` event. -/
inductive ItemUseOutcome where
  | undefinedError
  | openModal (target : BlockPos)
  | ignored
deriving DecidableEq, Repr

/-- The `afterEvents.itemUse` handler.  `hit` is the result of
`player.getBlockFromViewDirection()`: `none` when the view hits no block,
in which case the `.block` access on line 266 dereferences `undefined` and
raises before anything else is checked. -/
def itemUseHandler (hit : Option BlockPos) (itemTypeId : Str) (sneaking : Bool) :
    ItemUseOutcome :=
  match hit with
  | none => ItemUseOutcome.undefinedError
  | some b =>
    if itemTypeId == "minecraft:trial_key".data && !sneaking then ItemUseOutcome.openModal b
    else ItemUseOutcome.ignored

/-- The submission path of `showSettingModal` (lines 99-119): build the
settings from the three raw form strings, reject invalid input with a
player-visible message and no world change, otherwise run the placement
setup.  Returns the new world and the messages sent to the player. -/
def showSettingModalSubmit (w : World) (blockLoc : BlockPos) (v0 v1 v2 : Str) :
    World × List Str :=
  let s := GeneratorSettings.ofFormValues v0 v1 v2
  if s.validate then (setUpArmorStand w blockLoc s, [])
  else (w, [msgBadInput])

/-- A world with given block assignment and nothing else. -/
def initialWorld (B : BlockPos → Str) : World :=
  ⟨B, [], 0, [], []⟩

/-!  The one-generator world family produced by `setUpArmorStand` and
preserved by the tick processor, and the positions it involves. -/

/-- The barrier position placed for a generator targeted at `p`. -/
def anchorPos (p : BlockPos) : BlockPos := ⟨p.x, p.y + barrierOffset, p.z⟩

/-- The marker (armor stand) location for a generator targeted at `p`:
centered on the column, one block above the barrier. -/
def standLoc (p : BlockPos) : Vec3 := ⟨⟨p.x, true⟩, ⟨p.y + 100, false⟩, ⟨p.z, true⟩⟩

/-- The item spawn location for a generator targeted at `p`
(`ITEM_SPAWN_OFFSET` below the marker, hence two blocks above `p`). -/
def dropLoc (p : BlockPos) : Vec3 := ⟨⟨p.x, true⟩, ⟨p.y + 2, false⟩, ⟨p.z, true⟩⟩

/-- A world holding exactly one generator targeted at `p` over base blocks
`B`, with the marker's tag list, name tag, and the two logs as parameters. -/
def runWorld (B : BlockPos → Str) (p : BlockPos) (nm : Str) (tgs : List Str)
    (sp : List SpawnedItem) (ms : List Str) : World :=
  ⟨setBlockI B (anchorPos p) barrierT, [⟨0, armorStandT, standLoc p, nm, tgs⟩], 1, sp, ms⟩

/-!  Concrete fixtures used by witnesses and counterexamples. -/

/-- Item id `"minecraft:diamond"`. -/
def diamondT : Str := "minecraft:diamond".data

/-- Block type `"minecraft:stone"`. -/
def stoneT : Str := "minecraft:stone".data

/-- A world made entirely of stone. -/
def allStone : BlockPos → Str := fun _ => stoneT

/-- A host item system accepting every item stack. -/
def alwaysOk : Str → Option Int → Bool := fun _ _ => true

/-- A host item system rejecting every item stack. -/
def neverOk : Str → Option Int → Bool := fun _ _ => false

/-- The world origin block. -/
def origin : BlockPos := ⟨0, 0, 0⟩

/-- Item id of a well-formed but nonexistent item, used as a failing input. -/
def badItemT : Str := "minecraft:bad".data

/-- An item id that passes validation but contains the tag delimiter. -/
def commaItemT : Str := "minecraft:a,b".data

/-- The form string `"0"`. -/
def zeroStr : Str := "0".data

/-- The form string `"1"`. -/
def oneStr : Str := "1".data

/-!  Basic lemmas about the string and number primitives. -/

theorem digitChar_val (d : Nat) (h : d < 10) : digitVal (digitChar d) = d := by
  interval_cases d <;> decide

theorem digitChar_isDigit (d : Nat) (h : d < 10) : isDigitC (digitChar d) = true := by
  interval_cases d <;> decide

theorem natToDigitsAux_all_digit :
    ∀ fuel n : Nat, n < fuel → ∀ c ∈ natToDigitsAux fuel n, isDigitC c = true := by
  intro fuel
  induction fuel with
  | zero => intro n h; omega
  | succ f ih =>
    intro n h c hc
    rw [natToDigitsAux] at hc
    by_cases h10 : n < 10
    · rw [if_pos h10] at hc
      simp only [List.mem_singleton] at hc
      subst hc
      exact digitChar_isDigit n h10
    · rw [if_neg h10] at hc
      rcases List.mem_append.mp hc with h1 | h2
      · have hlt : n / 10 < n := Nat.div_lt_self (by omega) (by omega)
        exact ih (n / 10) (by omega) c h1
      · simp only [List.mem_singleton] at h2
        subst h2
        exact digitChar_isDigit _ (Nat.mod_lt _ (by omega))

theorem natToDigitsAux_ne_nil (fuel n : Nat) (h : n < fuel) : natToDigitsAux fuel n ≠ [] := by
  cases fuel with
  | zero => omega
  | succ f =>
    rw [natToDigitsAux]
    by_cases h10 : n < 10
    · simp [h10]
    · simp [h10]

theorem digitsToNat_append_one (l : Str) (c : Char) :
    digitsToNat (l ++ [c]) = digitsToNat l * 10 + digitVal c := by
  simp [digitsToNat, List.foldl_append]

theorem natToDigitsAux_val :
    ∀ fuel n : Nat, n < fuel → digitsToNat (natToDigitsAux fuel n) = n := by
  intro fuel
  induction fuel with
  | zero => intro n h; omega
  | succ f ih =>
    intro n h
    rw [natToDigitsAux]
    by_cases h10 : n < 10
    · rw [if_pos h10]
      simp [digitsToNat, digitChar_val n h10]
    · rw [if_neg h10, digitsToNat_append_one]
      have hlt : n / 10 < n := Nat.div_lt_self (by omega) (by omega)
      rw [ih (n / 10) (by omega), digitChar_val _ (Nat.mod_lt _ (by omega))]
      omega

theorem natToDigitsAux_head_pos :
    ∀ fuel n : Nat, n < fuel → 0 < n →
      ∀ c cs, natToDigitsAux fuel n = c :: cs → c ≠ '0' := by
  intro fuel
  induction fuel with
  | zero => intro n h; omega
  | succ f ih =>
    intro n h hpos c cs heq
    rw [natToDigitsAux] at heq
    by_cases h10 : n < 10
    · rw [if_pos h10] at heq
      have hc : digitChar n = c := by
        have := List.cons.injEq (digitChar n) [] c cs
        simp only [List.cons.injEq] at heq
        exact heq.1
      subst hc
      interval_cases n <;> decide
    · rw [if_neg h10] at heq
      have hlt : n / 10 < n := Nat.div_lt_self (by omega) (by omega)
      have hne : natToDigitsAux f (n / 10) ≠ [] := natToDigitsAux_ne_nil f (n / 10) (by omega)
      obtain ⟨d, ds, hds⟩ := List.exists_cons_of_ne_nil hne
      rw [hds] at heq
      simp only [List.cons_append, List.cons.injEq] at heq
      have hd : d = c := heq.1
      subst hd
      exact ih (n / 10) (by omega) (Nat.div_pos (by omega) (by omega)) d ds hds

theorem natToDigits_all_digit (n : Nat) : ∀ c ∈ natToDigits n, isDigitC c = true :=
  natToDigitsAux_all_digit (n + 1) n (by omega)

theorem natToDigits_ne_nil (n : Nat) : natToDigits n ≠ [] :=
  natToDigitsAux_ne_nil (n + 1) n (by omega)

theorem natToDigits_val (n : Nat) : digitsToNat (natToDigits n) = n :=
  natToDigitsAux_val (n + 1) n (by omega)

theorem natToDigits_head_pos (n : Nat) (h : 0 < n) :
    ∀ c cs, natToDigits n = c :: cs → c ≠ '0' :=
  natToDigitsAux_head_pos (n + 1) n (by omega) h

theorem isDigitC_not_space (c : Char) (h : isDigitC c = true) : isJsSpace c = false := by
  have h' : 48 ≤ c.toNat ∧ c.toNat ≤ 57 := by simpa [isDigitC] using h
  have e1 : (c == ' ') = false := by
    refine beq_eq_false_iff_ne.mpr ?_
    rintro rfl
    revert h'
    decide
  have e2 : (c == '\t') = false := by
    refine beq_eq_false_iff_ne.mpr ?_
    rintro rfl
    revert h'
    decide
  have e3 : (c == '\n') = false := by
    refine beq_eq_false_iff_ne.mpr ?_
    rintro rfl
    revert h'
    decide
  have e4 : (c == '\r') = false := by
    refine beq_eq_false_iff_ne.mpr ?_
    rintro rfl
    revert h'
    decide
  simp [isJsSpace, e1, e2, e3, e4]

theorem isDigitC_ne_sign (c : Char) (h : isDigitC c = true) : c ≠ '-' ∧ c ≠ '+' := by
  have h' : 48 ≤ c.toNat ∧ c.toNat ≤ 57 := by simpa [isDigitC] using h
  constructor
  · rintro rfl; revert h'; decide
  · rintro rfl; revert h'; decide

theorem isDigitC_ne_comma (c : Char) (h : isDigitC c = true) : c ≠ ',' := by
  have h' : 48 ≤ c.toNat ∧ c.toNat ≤ 57 := by simpa [isDigitC] using h
  rintro rfl; revert h'; decide

theorem takeWhile_all {p : Char → Bool} :
    ∀ l : Str, (∀ c ∈ l, p c = true) → l.takeWhile p = l := by
  intro l
  induction l with
  | nil => intro _; rfl
  | cons c r ih =>
    intro h
    rw [List.takeWhile_cons, h c (by simp)]
    simp [ih (fun x hx => h x (by simp [hx]))]

theorem dropWhile_head_false {p : Char → Bool} (c : Char) (r : Str) (h : p c = false) :
    (c :: r).dropWhile p = c :: r := by
  rw [List.dropWhile_cons, h]
  simp

theorem parseDec_natToDigits (m : Nat) : parseDec (natToDigits m) = some m := by
  unfold parseDec
  rw [takeWhile_all _ (natToDigits_all_digit m)]
  rw [if_neg (natToDigits_ne_nil m)]
  rw [natToDigits_val]

theorem hexMarked_of_head_ne (c : Char) (cs : Str) (h : c ≠ '0') :
    hexMarked (c :: cs) = false := by
  cases cs with
  | nil => rfl
  | cons c1 r => simp [hexMarked, h]

theorem parseIntSigned_natToDigits (m : Nat) : parseIntSigned (natToDigits m) = some (m : Int) := by
  obtain ⟨c, cs, hcs⟩ := List.exists_cons_of_ne_nil (natToDigits_ne_nil m)
  have hdig : isDigitC c = true := natToDigits_all_digit m c (by rw [hcs]; simp)
  have hsgn := isDigitC_ne_sign c hdig
  have hmk : hexMarked (c :: cs) = false := by
    by_cases hm : 0 < m
    · exact hexMarked_of_head_ne c cs (natToDigits_head_pos m hm c cs hcs)
    · have hm0 : m = 0 := by omega
      subst hm0
      have : natToDigits 0 = ['0'] := by decide
      rw [this] at hcs
      have h1 : c = '0' ∧ cs = ([] : Str) := by
        simpa using hcs.symm
      rw [h1.2]
      rfl
  rw [hcs, parseIntSigned]
  rw [if_neg hsgn.1]
  have hif : (if c = '-' ∨ c = '+' then cs else c :: cs) = (c :: cs) :=
    if_neg (fun hor => Or.elim hor hsgn.1 hsgn.2)
  rw [hif, hmk, ← hcs, parseDec_natToDigits]
  simp

theorem parseIntJS_natToDigits (m : Nat) : parseIntJS (natToDigits m) = some (m : Int) := by
  obtain ⟨c, cs, hcs⟩ := List.exists_cons_of_ne_nil (natToDigits_ne_nil m)
  have hdig : isDigitC c = true := natToDigits_all_digit m c (by rw [hcs]; simp)
  unfold parseIntJS
  rw [hcs, dropWhile_head_false c cs (isDigitC_not_space c hdig), ← hcs,
    parseIntSigned_natToDigits]

theorem parseIntJS_intToStr (n : Int) : parseIntJS (intToStr n) = some n := by
  unfold intToStr
  by_cases hn : n < 0
  · rw [if_pos hn]
    have hm : 0 < (-n).toNat := by omega
    obtain ⟨c, cs, hcs⟩ := List.exists_cons_of_ne_nil (natToDigits_ne_nil (-n).toNat)
    have hdig : isDigitC c = true := natToDigits_all_digit _ c (by rw [hcs]; simp)
    have hc0 : c ≠ '0' := natToDigits_head_pos _ hm c cs hcs
    unfold parseIntJS
    rw [dropWhile_head_false '-' _ (by decide)]
    rw [parseIntSigned]
    rw [if_pos rfl, if_pos (Or.inl rfl)]
    rw [hcs, hexMarked_of_head_ne c cs hc0, ← hcs, parseDec_natToDigits]
    have ht : (((-n).toNat : Nat) : Int) = -n := Int.toNat_of_nonneg (by omega)
    simp [ht]
  · rw [if_neg hn]
    rw [parseIntJS_natToDigits, Int.toNat_of_nonneg (not_lt.mp hn)]

theorem comma_not_mem_natToDigits (n : Nat) : ',' ∉ natToDigits n := by
  intro h
  have := natToDigits_all_digit n ',' h
  exact isDigitC_ne_comma ',' this rfl

theorem comma_not_mem_intToStr (n : Int) : ',' ∉ intToStr n := by
  unfold intToStr
  by_cases hn : n < 0
  · rw [if_pos hn]
    intro h
    rcases List.mem_cons.mp h with h | h
    · revert h; decide
    · exact comma_not_mem_natToDigits _ h
  · rw [if_neg hn]
    exact comma_not_mem_natToDigits _

theorem comma_not_mem_numStr (o : Option Int) : ',' ∉ numStr o := by
  cases o with
  | none => decide
  | some n => exact comma_not_mem_intToStr n

theorem splitComma_no_comma (a : Str) (h : ',' ∉ a) : splitComma a = [a] := by
  induction a with
  | nil => rfl
  | cons c r ih =>
    rw [splitComma, if_neg (fun hc => h (by simp [hc]))]
    rw [ih (fun hm => h (by simp [hm]))]

theorem splitComma_append (a r : Str) (h : ',' ∉ a) :
    splitComma (a ++ ',' :: r) = a :: splitComma r := by
  induction a with
  | nil => simp [splitComma]
  | cons c a' ih =>
    have hc : ¬ c = ',' := fun hc => h (by simp [hc])
    simp only [List.cons_append]
    rw [splitComma, if_neg hc, ih (fun hm => h (by simp [hm]))]

theorem replaceFirst_eq_drop (pat s : Str) (hp : pat.isPrefixOf s = true) (hne : pat ≠ []) :
    replaceFirst pat [] s = s.drop pat.length := by
  cases s with
  | nil =>
    cases pat with
    | nil => exact absurd rfl hne
    | cons c r => simp [List.isPrefixOf] at hp
  | cons c r =>
    rw [replaceFirst, if_pos hp]
    simp

theorem isPrefixOf_append (l1 l2 : Str) : l1.isPrefixOf (l1 ++ l2) = true := by
  rw [List.isPrefixOf_iff_prefix]
  exact List.prefix_append l1 l2

theorem decodeValues_genTagStr (s : GeneratorSettings) (p : BlockPos) (h : ',' ∉ s.itemId) :
    decodeValues (genTagStr s p) =
      [numStr s.ticks, s.itemId, numStr s.itemCount,
       intToStr p.x, intToStr p.y, intToStr p.z] := by
  unfold decodeValues genTagStr
  simp only [List.append_assoc, List.singleton_append, List.cons_append, List.nil_append]
  rw [replaceFirst_eq_drop _ _ (isPrefixOf_append _ _) (by decide)]
  rw [List.drop_left]
  rw [splitComma_append _ _ (comma_not_mem_numStr _)]
  rw [splitComma_append _ _ h]
  rw [splitComma_append _ _ (comma_not_mem_numStr _)]
  rw [splitComma_append _ _ (comma_not_mem_intToStr _)]
  rw [splitComma_append _ _ (comma_not_mem_intToStr _)]
  rw [splitComma_no_comma _ (comma_not_mem_intToStr _)]

theorem setUpArmorStand_initial (B : BlockPos → Str) (p : BlockPos) (s : GeneratorSettings) :
    setUpArmorStand (initialWorld B) p s =
      runWorld B p (numStr s.ticks) [genTagStr s p] [] [] := by
  cases p with
  | mk px py pz =>
    simp only [setUpArmorStand, initialWorld, runWorld, anchorPos, standLoc,
      Coord.add, Coord.ofInt, Coord.addInt, oneHalf, barrierOffset,
      World.mk.injEq, List.nil_append, List.cons.injEq, Entity.mk.injEq, Vec3.mk.injEq,
      Coord.mk.injEq]
    simp
    omega

theorem ne_anchorPos (p : BlockPos) : p ≠ anchorPos p := by
  cases p with
  | mk px py pz =>
    simp only [anchorPos, barrierOffset, ne_eq, BlockPos.mk.injEq, not_and]
    intro _ h
    omega

theorem vfloor_lowLoc (p : BlockPos) :
    vfloor { standLoc p with y := (standLoc p).y.addInt (-(barrierOffset + 1)) } = p := by
  cases p with
  | mk px py pz =>
    simp only [vfloor, standLoc, Coord.addInt, Coord.floorC, barrierOffset, BlockPos.mk.injEq]
    refine ⟨trivial, by omega, trivial⟩

theorem vfloor_lowPlus (p : BlockPos) :
    vfloor { standLoc p with
             y := ((standLoc p).y.addInt (-(barrierOffset + 1))).addInt barrierOffset } =
      anchorPos p := by
  cases p with
  | mk px py pz =>
    simp only [vfloor, standLoc, anchorPos, Coord.addInt, Coord.floorC, barrierOffset,
      BlockPos.mk.injEq]
    refine ⟨trivial, by omega, trivial⟩

theorem dropLoc_eq (p : BlockPos) :
    { standLoc p with y := (standLoc p).y.addInt (-itemSpawnOffset) } = dropLoc p := by
  cases p with
  | mk px py pz =>
    simp only [standLoc, dropLoc, itemSpawnOffset, Coord.addInt, Vec3.mk.injEq, Coord.mk.injEq]
    norm_num
    omega

theorem vfloor_removePos (p : BlockPos) :
    vfloor { standLoc p with y := (standLoc p).y.addInt barrierOffset } =
      ⟨p.x, p.y + 199, p.z⟩ := by
  cases p with
  | mk px py pz =>
    simp only [vfloor, standLoc, Coord.addInt, Coord.floorC, barrierOffset, BlockPos.mk.injEq]
    refine ⟨trivial, by omega, trivial⟩

theorem genTag_hasMark (s : GeneratorSettings) (p : BlockPos) :
    genMark.isPrefixOf (genTagStr s p) = true := by
  unfold genTagStr
  simp only [List.append_assoc]
  exact isPrefixOf_append _ _

theorem findEntity_runWorld (B : BlockPos → Str) (p : BlockPos) (nm : Str)
    (tgs : List Str) (sp : List SpawnedItem) (ms : List Str) :
    findEntity (runWorld B p nm tgs sp ms) 0 =
      some ⟨0, armorStandT, standLoc p, nm, tgs⟩ := by
  simp [findEntity, runWorld, List.find?]

theorem scan_runWorld (B : BlockPos → Str) (p : BlockPos) (tag nm : Str)
    (tgs : List Str) (sp : List SpawnedItem) (ms : List Str)
    (htg : tgs.find? (fun t => genMark.isPrefixOf t) = some tag) :
    scanGenerators (runWorld B p nm tgs sp ms) = [(0, tag)] := by
  simp [scanGenerators, runWorld, genTagOf, htg]


theorem blockAt_low (B : BlockPos → Str) (p : BlockPos) :
    blockAtV (setBlockI B (anchorPos p) barrierT)
      { standLoc p with y := (standLoc p).y.addInt (-(barrierOffset + 1)) } = B p := by
  unfold blockAtV
  rw [vfloor_lowLoc]
  unfold setBlockI
  rw [if_neg (ne_anchorPos p)]

theorem tick_run_eq_process (itemOk : Str → Option Int → Bool) (B : BlockPos → Str)
    (p : BlockPos) (tag nm : Str) (tgs : List Str) (sp : List SpawnedItem) (ms : List Str)
    (htg : tgs.find? (fun t => genMark.isPrefixOf t) = some tag) :
    tickStep itemOk (runWorld B p nm tgs sp ms) =
      processEntity itemOk 0 tag (runWorld B p nm tgs sp ms) := by
  unfold tickStep
  rw [scan_runWorld B p tag nm tgs sp ms htg]
  simp only [List.foldl_cons, List.foldl_nil]

theorem runWorld_blocks (B : BlockPos → Str) (p : BlockPos) (nm : Str) (tgs : List Str)
    (sp : List SpawnedItem) (ms : List Str) :
    (runWorld B p nm tgs sp ms).blocks = setBlockI B (anchorPos p) barrierT := rfl

theorem runWorld_entities (B : BlockPos → Str) (p : BlockPos) (nm : Str) (tgs : List Str)
    (sp : List SpawnedItem) (ms : List Str) :
    (runWorld B p nm tgs sp ms).entities = [⟨0, armorStandT, standLoc p, nm, tgs⟩] := rfl

theorem runWorld_nextId (B : BlockPos → Str) (p : BlockPos) (nm : Str) (tgs : List Str)
    (sp : List SpawnedItem) (ms : List Str) :
    (runWorld B p nm tgs sp ms).nextId = 1 := rfl

theorem runWorld_spawned (B : BlockPos → Str) (p : BlockPos) (nm : Str) (tgs : List Str)
    (sp : List SpawnedItem) (ms : List Str) :
    (runWorld B p nm tgs sp ms).spawnedItems = sp := rfl

theorem runWorld_messages (B : BlockPos → Str) (p : BlockPos) (nm : Str) (tgs : List Str)
    (sp : List SpawnedItem) (ms : List Str) :
    (runWorld B p nm tgs sp ms).messages = ms := rfl

theorem tick_run_destroy (itemOk : Str → Option Int → Bool) (B : BlockPos → Str)
    (p : BlockPos) (tag nm : Str) (tgs : List Str) (sp : List SpawnedItem) (ms : List Str)
    (hair : B p = airT)
    (htg : tgs.find? (fun t => genMark.isPrefixOf t) = some tag) :
    tickStep itemOk (runWorld B p nm tgs sp ms) =
      ⟨setBlockI (setBlockI B (anchorPos p) barrierT) (anchorPos p) airT, [], 1, sp,
       ms ++ [msgNoBlock]⟩ := by
  rw [tick_run_eq_process itemOk B p tag nm tgs sp ms htg]
  unfold processEntity
  rw [findEntity_runWorld]
  simp only [runWorld_blocks, runWorld_entities, runWorld_nextId, runWorld_spawned,
    runWorld_messages, blockAt_low, hair, eq_self_iff_true, if_true, setBlockV,
    vfloor_lowPlus, killEntity, broadcast, List.filter_cons, bne_self_eq_false,
    List.filter_nil]
  simp

theorem numStr_some (n : Int) : numStr (some n) = intToStr n := rfl

theorem find_genTag_single (s : GeneratorSettings) (p : BlockPos) :
    ([genTagStr s p] : List Str).find? (fun t => genMark.isPrefixOf t) =
      some (genTagStr s p) := by
  simp [List.find?, genTag_hasMark]

theorem find_genTag_pair (s : GeneratorSettings) (p : BlockPos) :
    ([genTagStr s p, initMark] : List Str).find? (fun t => genMark.isPrefixOf t) =
      some (genTagStr s p) := by
  simp [List.find?, genTag_hasMark]

theorem genTag_ne_initMark (s : GeneratorSettings) (p : BlockPos) :
    genTagStr s p ≠ initMark := by
  intro h
  have hm := genTag_hasMark s p
  rw [h] at hm
  exact absurd hm (by decide)

theorem contains_single_init (s : GeneratorSettings) (p : BlockPos) :
    ([genTagStr s p] : List Str).contains initMark = false := by
  simp [List.contains, genTag_ne_initMark s p]
  intro h
  exact absurd h.symm (genTag_ne_initMark s p)

theorem contains_pair_init (s : GeneratorSettings) (p : BlockPos) :
    ([genTagStr s p, initMark] : List Str).contains initMark = true := by
  simp [List.contains]

theorem tick_run_counting (itemOk : Str → Option Int → Bool) (B : BlockPos → Str)
    (p : BlockPos) (tag nm : Str) (tgs : List Str) (sp : List SpawnedItem) (ms : List Str)
    (k : Int)
    (hB : ¬ B p = airT)
    (htg : tgs.find? (fun t => genMark.isPrefixOf t) = some tag)
    (hinit : tgs.contains initMark = true)
    (hparse : parseIntJS nm = some k)
    (hk : ¬ k - 1 ≤ 0) :
    tickStep itemOk (runWorld B p nm tgs sp ms) =
      runWorld B p (intToStr (k - 1)) tgs sp ms := by
  rw [tick_run_eq_process itemOk B p tag nm tgs sp ms htg]
  unfold processEntity
  rw [findEntity_runWorld]
  simp only [runWorld_blocks, runWorld_entities, runWorld_nextId, runWorld_spawned,
    runWorld_messages, blockAt_low, hB, hinit, hparse, hk, updateEntity,
    List.map_cons, List.map_nil, eq_self_iff_true, if_true, ite_true, ite_false]
  simp [runWorld]

theorem tick_run_nan (itemOk : Str → Option Int → Bool) (B : BlockPos → Str)
    (p : BlockPos) (tag nm : Str) (tgs : List Str) (sp : List SpawnedItem) (ms : List Str)
    (hB : ¬ B p = airT)
    (htg : tgs.find? (fun t => genMark.isPrefixOf t) = some tag)
    (hinit : tgs.contains initMark = true)
    (hparse : parseIntJS nm = none) :
    tickStep itemOk (runWorld B p nm tgs sp ms) =
      runWorld B p ((decodeValues tag).getD 0 []) tgs sp ms := by
  rw [tick_run_eq_process itemOk B p tag nm tgs sp ms htg]
  unfold processEntity
  rw [findEntity_runWorld]
  simp only [runWorld_blocks, runWorld_entities, runWorld_nextId, runWorld_spawned,
    runWorld_messages, blockAt_low, hB, hinit, hparse, updateEntity,
    List.map_cons, List.map_nil, eq_self_iff_true, if_true, ite_true, ite_false]
  simp [runWorld]

theorem tick_run_emit (itemOk : Str → Option Int → Bool) (B : BlockPos → Str)
    (p p0 : BlockPos) (nm : Str) (sp : List SpawnedItem) (ms : List Str)
    (T C k : Int) (itemId : Str)
    (hB : ¬ B p = airT)
    (hcomma : ',' ∉ itemId)
    (hparse : parseIntJS nm = some k)
    (hk : k - 1 ≤ 0)
    (hok : itemOk itemId (some C) = true) :
    tickStep itemOk
        (runWorld B p nm [genTagStr ⟨some T, itemId, some C⟩ p0, initMark] sp ms) =
      runWorld B p (intToStr T) [genTagStr ⟨some T, itemId, some C⟩ p0, initMark]
        (sp ++ [⟨itemId, some C, dropLoc p⟩]) ms := by
  rw [tick_run_eq_process itemOk B p (genTagStr ⟨some T, itemId, some C⟩ p0) nm _ sp ms
    (find_genTag_pair _ _)]
  unfold processEntity
  rw [findEntity_runWorld]
  simp only [runWorld_blocks, runWorld_entities, runWorld_nextId, runWorld_spawned,
    runWorld_messages, blockAt_low, hB, contains_pair_init, hparse, hk,
    decodeValues_genTagStr ⟨some T, itemId, some C⟩ p0 hcomma,
    List.getD_cons_zero, List.getD_cons_succ, numStr_some, parseIntJS_intToStr,
    hok, dropLoc_eq, updateEntity, List.map_cons, List.map_nil,
    eq_self_iff_true, if_true, ite_true, ite_false]
  simp [runWorld]

theorem tick_run_emitFail (itemOk : Str → Option Int → Bool) (B : BlockPos → Str)
    (p p0 : BlockPos) (nm : Str) (sp : List SpawnedItem) (ms : List Str)
    (T C k : Int) (itemId : Str)
    (hB : ¬ B p = airT)
    (hcomma : ',' ∉ itemId)
    (hparse : parseIntJS nm = some k)
    (hk : k - 1 ≤ 0)
    (hok : itemOk itemId (some C) = false) :
    tickStep itemOk
        (runWorld B p nm [genTagStr ⟨some T, itemId, some C⟩ p0, initMark] sp ms) =
      ⟨setBlockI (setBlockI B (anchorPos p) barrierT) ⟨p.x, p.y + 199, p.z⟩ airT, [], 1, sp,
       ms ++ [msgInvalidRemoved, msgBadItem]⟩ := by
  rw [tick_run_eq_process itemOk B p (genTagStr ⟨some T, itemId, some C⟩ p0) nm _ sp ms
    (find_genTag_pair _ _)]
  unfold processEntity
  rw [findEntity_runWorld]
  simp only [runWorld_blocks, runWorld_entities, runWorld_nextId, runWorld_spawned,
    runWorld_messages, blockAt_low, hB, contains_pair_init, hparse, hk,
    decodeValues_genTagStr ⟨some T, itemId, some C⟩ p0 hcomma,
    List.getD_cons_zero, List.getD_cons_succ, numStr_some, parseIntJS_intToStr,
    hok, removeInvalidGenerator, setBlockV, vfloor_removePos, killEntity, broadcast,
    updateEntity, List.map_cons, List.map_nil, List.filter_cons, List.filter_nil,
    bne_self_eq_false, eq_self_iff_true, if_true, ite_true, ite_false]
  simp

set_option maxHeartbeats 4000000 in
theorem tick_run_init_counting (itemOk : Str → Option Int → Bool) (B : BlockPos → Str)
    (p p0 : BlockPos) (nm : Str) (sp : List SpawnedItem) (ms : List Str)
    (T C : Int) (itemId : Str)
    (hB : ¬ B p = airT)
    (hcomma : ',' ∉ itemId)
    (hk : ¬ T - 1 ≤ 0) :
    tickStep itemOk (runWorld B p nm [genTagStr ⟨some T, itemId, some C⟩ p0] sp ms) =
      runWorld B p (intToStr (T - 1)) [genTagStr ⟨some T, itemId, some C⟩ p0, initMark]
        sp ms := by
  rw [tick_run_eq_process itemOk B p (genTagStr ⟨some T, itemId, some C⟩ p0) nm _ sp ms
    (find_genTag_single _ _)]
  unfold processEntity
  rw [findEntity_runWorld]
  simp only [runWorld_blocks, runWorld_entities, runWorld_nextId, runWorld_spawned,
    runWorld_messages, blockAt_low, hB, contains_single_init, hk,
    decodeValues_genTagStr ⟨some T, itemId, some C⟩ p0 hcomma,
    List.getD_cons_zero, List.getD_cons_succ, numStr_some, parseIntJS_intToStr,
    updateEntity, List.map_cons, List.map_nil,
    eq_self_iff_true, if_true, ite_true, ite_false, Bool.false_eq_true]
  simp [runWorld]

set_option maxHeartbeats 4000000 in
theorem tick_run_init_emit (itemOk : Str → Option Int → Bool) (B : BlockPos → Str)
    (p p0 : BlockPos) (nm : Str) (sp : List SpawnedItem) (ms : List Str)
    (T C : Int) (itemId : Str)
    (hB : ¬ B p = airT)
    (hcomma : ',' ∉ itemId)
    (hk : T - 1 ≤ 0)
    (hok : itemOk itemId (some C) = true) :
    tickStep itemOk (runWorld B p nm [genTagStr ⟨some T, itemId, some C⟩ p0] sp ms) =
      runWorld B p (intToStr T) [genTagStr ⟨some T, itemId, some C⟩ p0, initMark]
        (sp ++ [⟨itemId, some C, dropLoc p⟩]) ms := by
  rw [tick_run_eq_process itemOk B p (genTagStr ⟨some T, itemId, some C⟩ p0) nm _ sp ms
    (find_genTag_single _ _)]
  unfold processEntity
  rw [findEntity_runWorld]
  simp only [runWorld_blocks, runWorld_entities, runWorld_nextId, runWorld_spawned,
    runWorld_messages, blockAt_low, hB, contains_single_init, hk,
    decodeValues_genTagStr ⟨some T, itemId, some C⟩ p0 hcomma,
    List.getD_cons_zero, List.getD_cons_succ, numStr_some, parseIntJS_intToStr,
    hok, dropLoc_eq, updateEntity, List.map_cons, List.map_nil,
    eq_self_iff_true, if_true, ite_true, ite_false, Bool.false_eq_true]
  simp [runWorld]


theorem c1_steps_counting (itemOk : Str → Option Int → Bool) (B : BlockPos → Str)
    (p p0 : BlockPos) (sp : List SpawnedItem) (ms : List Str)
    (T C : Int) (itemId : Str)
    (hB : ¬ B p = airT) (hcomma : ',' ∉ itemId) :
    ∀ j : Nat, 1 ≤ j → (j : Int) ≤ T - 1 →
      (tickStep itemOk)^[j]
          (runWorld B p (intToStr T) [genTagStr ⟨some T, itemId, some C⟩ p0] sp ms) =
        runWorld B p (intToStr (T - j)) [genTagStr ⟨some T, itemId, some C⟩ p0, initMark]
          sp ms := by
  intro j
  induction j with
  | zero => intro h; omega
  | succ j ih =>
    intro _ hj
    by_cases hj1 : j = 0
    · subst hj1
      rw [Function.iterate_one]
      rw [tick_run_init_counting itemOk B p p0 _ sp ms T C itemId hB hcomma
        (by push_cast at hj; omega)]
      norm_num
    · rw [Function.iterate_succ_apply']
      rw [ih (by omega) (by push_cast at hj ⊢; omega)]
      rw [tick_run_counting itemOk B p (genTagStr ⟨some T, itemId, some C⟩ p0)
        (intToStr (T - j)) _ sp ms (T - j) hB (find_genTag_pair _ _)
        (contains_pair_init _ _) (parseIntJS_intToStr _)
        (by push_cast at hj ⊢; omega)]
      have harg : T - (j : Int) - 1 = T - ((j + 1 : Nat) : Int) := by
        push_cast
        ring
      rw [harg]

/-- C1: for every valid configuration (positive interval, namespaced
comma-free item id, positive count, an item the host item system accepts)
placed on a non-air target block, Placement Setup followed by
`intervalTicks` tick-processor steps emits exactly one item stack (the
configured id and count, at the drop position two blocks above the target,
98 below the marker) and leaves the countdown label at `intervalTicks`. -/
theorem c1_setup_then_T_steps_emits_once (itemOk : Str → Option Int → Bool)
    (B : BlockPos → Str) (p : BlockPos) (T C : Int) (itemId : Str)
    (hT : 0 < T) (hC : 0 < C)
    (hns : nsMark.isPrefixOf itemId = true)
    (hcomma : ',' ∉ itemId)
    (hok : itemOk itemId (some C) = true)
    (htarget : ¬ B p = airT) :
    ((tickStep itemOk)^[T.toNat]
        (setUpArmorStand (initialWorld B) p ⟨some T, itemId, some C⟩)).spawnedItems =
      [⟨itemId, some C, dropLoc p⟩] ∧
    (findEntity
        ((tickStep itemOk)^[T.toNat]
          (setUpArmorStand (initialWorld B) p ⟨some T, itemId, some C⟩)) 0).map
        Entity.nameTag = some (intToStr T) := by
  rw [setUpArmorStand_initial]
  have hnm : numStr (GeneratorSettings.mk (some T) itemId (some C)).ticks = intToStr T := rfl
  rw [hnm]
  by_cases hT1 : T = 1
  · subst hT1
    have h1 : (1 : Int).toNat = 1 := rfl
    rw [h1, Function.iterate_one]
    rw [tick_run_init_emit itemOk B p p _ [] [] 1 C itemId htarget hcomma (by omega) hok]
    constructor
    · simp [runWorld]
    · rw [findEntity_runWorld]
      rfl
  · have hsplit : T.toNat = (T.toNat - 1) + 1 := by omega
    rw [hsplit, Function.iterate_succ_apply']
    rw [c1_steps_counting itemOk B p p [] [] T C itemId htarget hcomma (T.toNat - 1)
      (by omega) (by omega)]
    have hone : T - ((T.toNat - 1 : Nat) : Int) = 1 := by
      omega
    rw [hone]
    rw [tick_run_emit itemOk B p p (intToStr 1) [] [] T C 1 itemId htarget hcomma
      (parseIntJS_intToStr 1) (by omega) hok]
    constructor
    · simp [runWorld]
    · rw [findEntity_runWorld]
      rfl


/-- Witness for C1 at a concrete input (interval 2, one diamond, stone
world at the origin). -/
theorem c1_setup_then_T_steps_emits_once_witness :
    ((0 : Int) < 2 ∧ (0 : Int) < 1 ∧ nsMark.isPrefixOf diamondT = true ∧
      ',' ∉ diamondT ∧ alwaysOk diamondT (some 1) = true ∧ ¬ allStone origin = airT) ∧
    ((tickStep alwaysOk)^[(2 : Int).toNat]
        (setUpArmorStand (initialWorld allStone) origin ⟨some 2, diamondT, some 1⟩)).spawnedItems =
      [⟨diamondT, some 1, dropLoc origin⟩] ∧
    (findEntity
        ((tickStep alwaysOk)^[(2 : Int).toNat]
          (setUpArmorStand (initialWorld allStone) origin ⟨some 2, diamondT, some 1⟩)) 0).map
        Entity.nameTag = some (intToStr 2) :=
  ⟨⟨by decide, by decide, by decide, by decide, rfl, by decide⟩,
   c1_setup_then_T_steps_emits_once alwaysOk allStone origin 2 1 diamondT
     (by decide) (by decide) (by decide) (by decide) rfl (by decide)⟩


theorem tick_run_messages (itemOk : Str → Option Int → Bool) (B : BlockPos → Str)
    (p : BlockPos) (tag nm : Str) (tgs : List Str) (sp : List SpawnedItem) (ms : List Str)
    (hB : ¬ B p = airT)
    (htg : tgs.find? (fun t => genMark.isPrefixOf t) = some tag) :
    (tickStep itemOk (runWorld B p nm tgs sp ms)).messages = ms ∨
    (tickStep itemOk (runWorld B p nm tgs sp ms)).messages =
      ms ++ [msgInvalidRemoved, msgBadItem] := by
  rw [tick_run_eq_process itemOk B p tag nm tgs sp ms htg]
  unfold processEntity
  rw [findEntity_runWorld]
  simp only [runWorld_blocks, runWorld_entities, runWorld_nextId, runWorld_spawned,
    runWorld_messages, blockAt_low, hB, ite_false, if_false]
  cases hin : tgs.contains initMark with
  | true =>
    simp only [hin, ite_true, if_true, eq_self_iff_true]
    cases hp : parseIntJS nm with
    | none =>
      simp only [hp]
      left
      simp [updateEntity, runWorld_messages]
    | some c =>
      simp only [hp]
      by_cases hc : c - 1 ≤ 0
      · simp only [hc, ite_true, if_true, eq_self_iff_true]
        cases ho : itemOk ((decodeValues tag).getD 1 [])
            (parseIntJS ((decodeValues tag).getD 2 [])) with
        | true =>
          simp only [ho, ite_true, if_true, eq_self_iff_true]
          left
          simp [updateEntity, runWorld_messages]
        | false =>
          simp only [ho, Bool.false_eq_true, ite_false, if_false]
          right
          simp [removeInvalidGenerator, updateEntity, killEntity, broadcast, runWorld_messages]
      · simp only [hc, ite_false, if_false]
        left
        simp [updateEntity, runWorld_messages]
  | false =>
    simp only [hin, Bool.false_eq_true, ite_false, if_false]
    cases hp : parseIntJS ((decodeValues tag).getD 0 []) with
    | none =>
      simp only [hp]
      left
      simp [updateEntity, runWorld_messages]
    | some c =>
      simp only [hp]
      by_cases hc : c - 1 ≤ 0
      · simp only [hc, ite_true, if_true, eq_self_iff_true]
        cases ho : itemOk ((decodeValues tag).getD 1 [])
            (parseIntJS ((decodeValues tag).getD 2 [])) with
        | true =>
          simp only [ho, ite_true, if_true, eq_self_iff_true]
          left
          simp [updateEntity, runWorld_messages]
        | false =>
          simp only [ho, Bool.false_eq_true, ite_false, if_false]
          right
          simp [removeInvalidGenerator, updateEntity, killEntity, broadcast, runWorld_messages]
      · simp only [hc, ite_false, if_false]
        left
        simp [updateEntity, runWorld_messages]


/-- C2 (amended): structural validation keys on the original target block,
not the barrier: the tick destroys the generator (clearing the barrier
position, killing the marker, broadcasting, emitting nothing) exactly when
the block at the target position is air; when the target block is present
the structural branch is never taken (the only possible broadcast is the
invalid-item one). -/
theorem c2_struct_validation_targets_base_block (itemOk : Str → Option Int → Bool)
    (B : BlockPos → Str) (p : BlockPos) (tag nm : Str) (tgs : List Str)
    (sp : List SpawnedItem) (ms : List Str)
    (htg : tgs.find? (fun t => genMark.isPrefixOf t) = some tag) :
    (B p = airT →
      tickStep itemOk (runWorld B p nm tgs sp ms) =
        ⟨setBlockI (setBlockI B (anchorPos p) barrierT) (anchorPos p) airT, [], 1, sp,
         ms ++ [msgNoBlock]⟩) ∧
    (¬ B p = airT →
      (tickStep itemOk (runWorld B p nm tgs sp ms)).messages = ms ∨
      (tickStep itemOk (runWorld B p nm tgs sp ms)).messages =
        ms ++ [msgInvalidRemoved, msgBadItem]) := by
  constructor
  · intro hair
    exact tick_run_destroy itemOk B p tag nm tgs sp ms hair htg
  · intro hB
    exact tick_run_messages itemOk B p tag nm tgs sp ms hB htg

/-- Witness for C2's amended theorem at a concrete generator world. -/
theorem c2_struct_validation_targets_base_block_witness :
    (([genTagStr ⟨some 5, diamondT, some 1⟩ origin] : List Str).find?
        (fun t => genMark.isPrefixOf t) = some (genTagStr ⟨some 5, diamondT, some 1⟩ origin)) ∧
    ((allStone origin = airT →
      tickStep alwaysOk
          (runWorld allStone origin (intToStr 5)
            [genTagStr ⟨some 5, diamondT, some 1⟩ origin] [] []) =
        ⟨setBlockI (setBlockI allStone (anchorPos origin) barrierT) (anchorPos origin) airT,
         [], 1, [], [] ++ [msgNoBlock]⟩) ∧
    (¬ allStone origin = airT →
      (tickStep alwaysOk
          (runWorld allStone origin (intToStr 5)
            [genTagStr ⟨some 5, diamondT, some 1⟩ origin] [] [])).messages = [] ∨
      (tickStep alwaysOk
          (runWorld allStone origin (intToStr 5)
            [genTagStr ⟨some 5, diamondT, some 1⟩ origin] [] [])).messages =
        [] ++ [msgInvalidRemoved, msgBadItem])) :=
  ⟨by decide,
   c2_struct_validation_targets_base_block alwaysOk allStone origin
     (genTagStr ⟨some 5, diamondT, some 1⟩ origin) (intToStr 5)
     [genTagStr ⟨some 5, diamondT, some 1⟩ origin] [] [] (by decide)⟩

/-- C2 (counterexample): a generator whose barrier was removed out-of-band
while the target block is intact is NOT destroyed by the next step — the
marker survives and no diagnostic is broadcast — refuting the claim that
structural validation destroys the generator exactly when the anchor
(barrier) block is missing. -/
theorem c2_counterexample :
    ({ setUpArmorStand (initialWorld allStone) origin ⟨some 5, diamondT, some 1⟩ with
        blocks := setBlockI allStone ⟨0, 99, 0⟩ airT } : World).blocks ⟨0, 99, 0⟩ = airT ∧
    (tickStep alwaysOk
        { setUpArmorStand (initialWorld allStone) origin ⟨some 5, diamondT, some 1⟩ with
          blocks := setBlockI allStone ⟨0, 99, 0⟩ airT }).entities.length = 1 ∧
    (tickStep alwaysOk
        { setUpArmorStand (initialWorld allStone) origin ⟨some 5, diamondT, some 1⟩ with
          blocks := setBlockI allStone ⟨0, 99, 0⟩ airT }).messages = [] := by
  refine ⟨by decide, by decide, by decide⟩


/-- C3 (evaluation at the failing input): when emission fails for a
generator at the origin, the step kills the marker, broadcasts both
diagnostics, emits nothing, and never processes the generator again —
but the anchor barrier at (0,99,0) is NOT removed: the block cleared is
at (0,199,0), `BARRIER_OFFSET` above the marker, because
`removeInvalidGenerator` is handed `entity.location` instead of the
generator's base position. -/
theorem c3_failing_input_eval :
    (tickStep neverOk
        (setUpArmorStand (initialWorld allStone) origin ⟨some 1, badItemT, some 1⟩)).entities =
      [] ∧
    (tickStep neverOk
        (setUpArmorStand (initialWorld allStone) origin ⟨some 1, badItemT, some 1⟩)).blocks
        ⟨0, 99, 0⟩ = barrierT ∧
    (tickStep neverOk
        (setUpArmorStand (initialWorld allStone) origin ⟨some 1, badItemT, some 1⟩)).blocks
        ⟨0, 199, 0⟩ = airT ∧
    (tickStep neverOk
        (setUpArmorStand (initialWorld allStone) origin ⟨some 1, badItemT, some 1⟩)).messages =
      [msgInvalidRemoved, msgBadItem] ∧
    (tickStep neverOk
        (setUpArmorStand (initialWorld allStone) origin ⟨some 1, badItemT, some 1⟩)).spawnedItems =
      [] ∧
    ((tickStep neverOk)^[4]
        (setUpArmorStand (initialWorld allStone) origin ⟨some 1, badItemT, some 1⟩)).messages =
      [msgInvalidRemoved, msgBadItem] ∧
    ((tickStep neverOk)^[4]
        (setUpArmorStand (initialWorld allStone) origin ⟨some 1, badItemT, some 1⟩)).spawnedItems =
      [] := by
  refine ⟨by decide, by decide, by decide, by decide, by decide, by decide, by decide⟩

/-- C4 (evaluation at the failing input): re-running Placement Setup on the
same target block duplicates the generator instead of overwriting it — two
gen-tagged markers are discovered by the registry scan — and after a
reconfiguration from interval 5 to interval 10, five steps still produce an
emission (the old period keeps firing). -/
theorem c4_failing_input_eval :
    (scanGenerators
        (setUpArmorStand
          (setUpArmorStand (initialWorld allStone) origin ⟨some 5, diamondT, some 1⟩)
          origin ⟨some 10, diamondT, some 1⟩)).length = 2 ∧
    (setUpArmorStand
        (setUpArmorStand (initialWorld allStone) origin ⟨some 5, diamondT, some 1⟩)
        origin ⟨some 10, diamondT, some 1⟩).entities.length = 2 ∧
    ((tickStep alwaysOk)^[5]
        (setUpArmorStand
          (setUpArmorStand (initialWorld allStone) origin ⟨some 5, diamondT, some 1⟩)
          origin ⟨some 10, diamondT, some 1⟩)).spawnedItems =
      [⟨diamondT, some 1, dropLoc origin⟩] := by
  refine ⟨by decide, by decide, by decide⟩

/-- C5 (counterexample): in the interval-1 diamond scenario at (0,64,0),
the one item of the first step spawns at (0.5, 66, 0.5) — sixty-six, not
near y = 62: the 98-unit offset below the marker (which sits at y = 164)
lands two blocks ABOVE the target, four blocks away from the claimed
position. -/
theorem c5_counterexample :
    ((tickStep alwaysOk)^[1]
        (setUpArmorStand (initialWorld allStone) ⟨0, 64, 0⟩
          ⟨some 1, diamondT, some 1⟩)).spawnedItems =
      [⟨diamondT, some 1, ⟨⟨0, true⟩, ⟨66, false⟩, ⟨0, true⟩⟩⟩] ∧
    ¬ ((66 : Int) - 62 ≤ 1) := by
  refine ⟨by decide, by decide⟩

/-- C5 (amended): the interval-1 diamond generator at (0,64,0) emits, after
one step, exactly one diamond at (0.5, 66, 0.5) — 98 below the marker at
y = 164, two above the target — and its countdown label returns to 1. -/
theorem c5_amended_scenario :
    ((tickStep alwaysOk)^[1]
        (setUpArmorStand (initialWorld allStone) ⟨0, 64, 0⟩
          ⟨some 1, diamondT, some 1⟩)).spawnedItems =
      [⟨diamondT, some 1, dropLoc ⟨0, 64, 0⟩⟩] ∧
    dropLoc ⟨0, 64, 0⟩ = ⟨⟨0, true⟩, ⟨66, false⟩, ⟨0, true⟩⟩ ∧
    (findEntity
        ((tickStep alwaysOk)^[1]
          (setUpArmorStand (initialWorld allStone) ⟨0, 64, 0⟩
            ⟨some 1, diamondT, some 1⟩)) 0).map Entity.nameTag = some (intToStr 1) := by
  refine ⟨by decide, by decide, by decide⟩


/-- C6 (amended): decoding the tag produced by encoding recovers the
interval, item id, and count for every configuration whose numeric fields
are integers and whose (namespaced) item id contains no comma — the comma
being the tag's field delimiter. -/
theorem c6_codec_roundtrip (t k : Int) (itemId : Str) (p : BlockPos)
    (hns : nsMark.isPrefixOf itemId = true) (hcomma : ',' ∉ itemId) :
    parseIntJS ((decodeValues (genTagStr ⟨some t, itemId, some k⟩ p)).getD 0 []) = some t ∧
    (decodeValues (genTagStr ⟨some t, itemId, some k⟩ p)).getD 1 [] = itemId ∧
    parseIntJS ((decodeValues (genTagStr ⟨some t, itemId, some k⟩ p)).getD 2 []) = some k := by
  rw [decodeValues_genTagStr ⟨some t, itemId, some k⟩ p hcomma]
  refine ⟨?_, rfl, ?_⟩ <;>
    simp [numStr_some, parseIntJS_intToStr, List.getD_cons_zero, List.getD_cons_succ]

/-- Witness for C6's amended round-trip at a concrete configuration. -/
theorem c6_codec_roundtrip_witness :
    (nsMark.isPrefixOf diamondT = true ∧ ',' ∉ diamondT) ∧
    parseIntJS ((decodeValues (genTagStr ⟨some 200, diamondT, some 1⟩ ⟨0, 64, 0⟩)).getD 0 []) =
      some 200 ∧
    (decodeValues (genTagStr ⟨some 200, diamondT, some 1⟩ ⟨0, 64, 0⟩)).getD 1 [] = diamondT ∧
    parseIntJS ((decodeValues (genTagStr ⟨some 200, diamondT, some 1⟩ ⟨0, 64, 0⟩)).getD 2 []) =
      some 1 :=
  ⟨⟨by decide, by decide⟩,
   c6_codec_roundtrip 200 1 diamondT ⟨0, 64, 0⟩ (by decide) (by decide)⟩

/-- C6 (counterexample): an item id containing a comma passes
`GeneratorSettings.validate` but does not survive the encode/decode round
trip — the decoded item id is truncated at the embedded comma. -/
theorem c6_counterexample :
    GeneratorSettings.validate ⟨some 1, commaItemT, some 1⟩ = true ∧
    ¬ (decodeValues (genTagStr ⟨some 1, commaItemT, some 1⟩ origin)).getD 1 [] = commaItemT := by
  refine ⟨by decide, by decide⟩

/-- C7: whenever the protection condition holds (a barrier sits
`BARRIER_OFFSET` above the broken block and a gen-tagged armor stand
occupies, by floored comparison, the position one block above it), a
non-creative actor's removal is cancelled with a notification, and a
creative actor's removal is never cancelled. -/
theorem c7_protection_guard (w : World) (gm : GameMode) (bp : BlockPos)
    (hbar : w.blocks ⟨bp.x, bp.y + barrierOffset, bp.z⟩ = barrierT)
    (hmark : ∃ e ∈ w.entities, e.typeId = armorStandT ∧
      (∃ t ∈ e.tags, genMark.isPrefixOf t = true) ∧
      vfloor e.loc = ⟨bp.x, bp.y + barrierOffset + 1, bp.z⟩) :
    (¬ gm = GameMode.creative → breakBlockGuard w gm bp = (true, [msgBreakDeny])) ∧
    (gm = GameMode.creative → breakBlockGuard w gm bp = (false, [])) := by
  unfold breakBlockGuard
  have hisgen : (w.entities.any fun e =>
      e.typeId == armorStandT && e.tags.any (fun t => genMark.isPrefixOf t) &&
      (vfloor e.loc == ⟨bp.x, bp.y + barrierOffset + 1, bp.z⟩)) = true := by
    rw [List.any_eq_true]
    obtain ⟨e, he, h1, ⟨t, ht, h2⟩, h3⟩ := hmark
    refine ⟨e, he, ?_⟩
    simp only [Bool.and_eq_true, beq_iff_eq, List.any_eq_true]
    exact ⟨⟨h1, ⟨t, ht, h2⟩⟩, h3⟩
  constructor
  · intro h
    have hgm : (gm == GameMode.creative) = false := by
      simp [h]
    simp only [hbar, hisgen, hgm, if_true, ite_true, eq_self_iff_true, Bool.not_false,
      Bool.and_true, Bool.true_and]
  · intro h
    subst h
    simp only [hbar, hisgen, if_true, ite_true, eq_self_iff_true, beq_self_eq_true,
      Bool.not_true, Bool.and_false, Bool.false_eq_true, ite_false, if_false]

/-- Witness for C7 on a freshly placed generator: survival break is vetoed;
the conclusion also covers the creative clause vacuously discharged. -/
theorem c7_protection_guard_witness :
    ((setUpArmorStand (initialWorld allStone) origin
        ⟨some 5, diamondT, some 1⟩).blocks ⟨0, 0 + barrierOffset, 0⟩ = barrierT) ∧
    ((¬ GameMode.survival = GameMode.creative →
      breakBlockGuard
          (setUpArmorStand (initialWorld allStone) origin ⟨some 5, diamondT, some 1⟩)
          GameMode.survival origin = (true, [msgBreakDeny])) ∧
    (GameMode.survival = GameMode.creative →
      breakBlockGuard
          (setUpArmorStand (initialWorld allStone) origin ⟨some 5, diamondT, some 1⟩)
          GameMode.survival origin = (false, []))) :=
  ⟨by decide,
   c7_protection_guard
     (setUpArmorStand (initialWorld allStone) origin ⟨some 5, diamondT, some 1⟩)
     GameMode.survival origin (by decide) (by decide)⟩


/-- C8 (amended): for a valid generator (interval `T ≥ 1`, accepted item),
one tick-processor step sends the countdown label into `[1, T]` whenever
the observed label is unparseable or parses to a value at most `T`
(in-range values stay in range, low values and parse failures reset to
`T`); labels parsing above the range are merely decremented by one, so
they re-enter the range only after enough steps, not on first observation. -/
theorem c8_countdown_normalization (itemOk : Str → Option Int → Bool)
    (B : BlockPos → Str) (p p0 : BlockPos) (sp : List SpawnedItem) (ms : List Str)
    (T C : Int) (itemId : Str) (nm : Str)
    (hT : 1 ≤ T) (hB : ¬ B p = airT) (hcomma : ',' ∉ itemId)
    (hok : itemOk itemId (some C) = true)
    (hnm : parseIntJS nm = none ∨ ∃ c : Int, parseIntJS nm = some c ∧ c ≤ T) :
    ∃ cNew : Int,
      (findEntity
          (tickStep itemOk
            (runWorld B p nm [genTagStr ⟨some T, itemId, some C⟩ p0, initMark] sp ms)) 0).map
          Entity.nameTag = some (intToStr cNew) ∧
      1 ≤ cNew ∧ cNew ≤ T := by
  rcases hnm with hnone | ⟨c, hc, hcT⟩
  · refine ⟨T, ?_, by omega, by omega⟩
    rw [tick_run_nan itemOk B p (genTagStr ⟨some T, itemId, some C⟩ p0) nm _ sp ms hB
      (find_genTag_pair _ _) (contains_pair_init _ _) hnone]
    rw [findEntity_runWorld]
    rw [decodeValues_genTagStr ⟨some T, itemId, some C⟩ p0 hcomma]
    rfl
  · by_cases hlow : c - 1 ≤ 0
    · refine ⟨T, ?_, by omega, by omega⟩
      rw [tick_run_emit itemOk B p p0 nm sp ms T C c itemId hB hcomma hc hlow hok]
      rw [findEntity_runWorld]
      rfl
    · refine ⟨c - 1, ?_, by omega, by omega⟩
      rw [tick_run_counting itemOk B p (genTagStr ⟨some T, itemId, some C⟩ p0) nm _ sp ms c
        hB (find_genTag_pair _ _) (contains_pair_init _ _) hc hlow]
      rw [findEntity_runWorld]
      rfl

/-- Witness for C8's amended theorem: interval 5, observed label `"3"`. -/
theorem c8_countdown_normalization_witness :
    ((1 : Int) ≤ 5 ∧ ¬ allStone origin = airT ∧ ',' ∉ diamondT ∧
      alwaysOk diamondT (some 1) = true ∧
      (parseIntJS ("3".data) = none ∨
        ∃ c : Int, parseIntJS ("3".data) = some c ∧ c ≤ 5)) ∧
    ∃ cNew : Int,
      (findEntity
          (tickStep alwaysOk
            (runWorld allStone origin ("3".data)
              [genTagStr ⟨some 5, diamondT, some 1⟩ origin, initMark] [] [])) 0).map
          Entity.nameTag = some (intToStr cNew) ∧
      1 ≤ cNew ∧ cNew ≤ 5 :=
  ⟨⟨by decide, by decide, by decide, rfl, Or.inr ⟨3, by decide, by decide⟩⟩,
   c8_countdown_normalization alwaysOk allStone origin origin [] [] 5 1 diamondT
     ("3".data) (by decide) (by decide) (by decide) rfl
     (Or.inr ⟨3, by decide, by decide⟩)⟩

/-- C8 (counterexample): with interval 5 and an out-of-range label `"1000"`,
the step leaves the label at `"999"` — still far outside `[1, 5]` — so the
label after a step is not always in `[1, intervalTicks]` and out-of-range
observations are not normalized back into the range on that observation. -/
theorem c8_counterexample :
    (findEntity
        (tickStep alwaysOk
          (runWorld allStone origin ("1000".data)
            [genTagStr ⟨some 5, diamondT, some 1⟩ origin, initMark] [] [])) 0).map
        Entity.nameTag = some ("999".data) ∧
    parseIntJS ("999".data) = some 999 ∧ ¬ ((999 : Int) ≤ 5) := by
  refine ⟨by decide, by decide, by decide⟩

/-- C9 (amended): the validation step is the sole gatekeeper — invalid form
input yields a visible rejection and an unchanged world, and accepted input
creates the generator via Placement Setup — but what it guarantees is only
that both numeric fields parse as integers (possibly zero or negative) and
that the item id bears the `minecraft:` namespace. -/
theorem c9_validation_gatekeeper (w : World) (p : BlockPos) (v0 v1 v2 : Str) :
    ((GeneratorSettings.ofFormValues v0 v1 v2).validate = false →
      showSettingModalSubmit w p v0 v1 v2 = (w, [msgBadInput])) ∧
    ((GeneratorSettings.ofFormValues v0 v1 v2).validate = true →
      showSettingModalSubmit w p v0 v1 v2 =
        (setUpArmorStand w p (GeneratorSettings.ofFormValues v0 v1 v2), []) ∧
      ∃ t k : Int, (GeneratorSettings.ofFormValues v0 v1 v2).ticks = some t ∧
        (GeneratorSettings.ofFormValues v0 v1 v2).itemCount = some k ∧
        nsMark.isPrefixOf (GeneratorSettings.ofFormValues v0 v1 v2).itemId = true) := by
  constructor
  · intro h
    simp [showSettingModalSubmit, h]
  · intro h
    refine ⟨by simp [showSettingModalSubmit, h], ?_⟩
    have h' := h
    unfold GeneratorSettings.validate at h'
    simp only [Bool.and_eq_true] at h'
    obtain ⟨⟨h1, h2⟩, h3⟩ := h'
    obtain ⟨t, ht⟩ := Option.isSome_iff_exists.mp h1
    obtain ⟨k, hk⟩ := Option.isSome_iff_exists.mp h3
    exact ⟨t, k, ht, hk, h2⟩

/-- Witness for C9's amended theorem at concrete form input. -/
theorem c9_validation_gatekeeper_witness :
    ((GeneratorSettings.ofFormValues zeroStr diamondT oneStr).validate = false →
      showSettingModalSubmit (initialWorld allStone) origin zeroStr diamondT oneStr =
        (initialWorld allStone, [msgBadInput])) ∧
    ((GeneratorSettings.ofFormValues zeroStr diamondT oneStr).validate = true →
      showSettingModalSubmit (initialWorld allStone) origin zeroStr diamondT oneStr =
        (setUpArmorStand (initialWorld allStone) origin
          (GeneratorSettings.ofFormValues zeroStr diamondT oneStr), []) ∧
      ∃ t k : Int, (GeneratorSettings.ofFormValues zeroStr diamondT oneStr).ticks = some t ∧
        (GeneratorSettings.ofFormValues zeroStr diamondT oneStr).itemCount = some k ∧
        nsMark.isPrefixOf (GeneratorSettings.ofFormValues zeroStr diamondT oneStr).itemId =
          true) :=
  c9_validation_gatekeeper (initialWorld allStone) origin zeroStr diamondT oneStr

/-- C9 (counterexample): the form input `("0", "minecraft:diamond", "1")`
passes validation and creates a generator whose decoded interval is 0 —
not an integer greater than zero — refuting the claim's consequence. -/
theorem c9_counterexample :
    (GeneratorSettings.ofFormValues zeroStr diamondT oneStr).validate = true ∧
    (GeneratorSettings.ofFormValues zeroStr diamondT oneStr).ticks = some 0 ∧
    ¬ ((0 : Int) > 0) ∧
    ((showSettingModalSubmit (initialWorld allStone) origin
        zeroStr diamondT oneStr).1).entities.length = 1 := by
  refine ⟨by decide, by decide, by decide, by decide⟩

/-- C10: the `itemUse` handler dereferences
`getBlockFromViewDirection().block` before everything else, so whenever the
view hits no block the handler fails with the undefined dereference for
every item type and sneaking stance — the trigger-item condition is never
reached. -/
theorem c10_itemuse_undefined_deref (itemTypeId : Str) (sneaking : Bool) :
    itemUseHandler none itemTypeId sneaking = ItemUseOutcome.undefinedError := rfl

/-- Witness for C10 at a concrete item and stance. -/
theorem c10_itemuse_undefined_deref_witness :
    itemUseHandler none ("minecraft:trial_key".data) false =
      ItemUseOutcome.undefinedError :=
  c10_itemuse_undefined_deref ("minecraft:trial_key".data) false

end ItemGen
